import Mathlib

/-!
Verification of the board-game simulation-and-learning core:
a shallow embedding of the Q-learning agent (`ai_player.py`),
the turn-based game simulator (`game_simulator.py`) and the
balance analyzer (`balance_analyzer.py`), with theorems settling
the specified properties.

Python dictionaries are modelled as association lists with unique
keys, preserving insertion order; dictionary update replaces the
value in place or appends a fresh key at the end, exactly as CPython
does. Real-valued quantities are modelled as rationals (`ℚ`): every
arithmetic operation performed by the code (addition, multiplication,
division, min/max, comparison) is exact on the inputs the properties
concern.
-/

namespace AIMLProject

/-- `d.get(k, default)` / `d[k]` on an association-list dictionary. -/
def dictGet {K V : Type} [DecidableEq K] (t : List (K × V)) (k : K) (d : V) : V :=
  match t with
  | [] => d
  | (k', v) :: rest => if k' = k then v else dictGet rest k d

/-- `d[k] = v` on an association-list dictionary: replace in place,
or append when the key is fresh (CPython insertion-order semantics). -/
def dictSet {K V : Type} [DecidableEq K] (t : List (K × V)) (k : K) (v : V) :
    List (K × V) :=
  match t with
  | [] => [(k, v)]
  | (k', v') :: rest => if k' = k then (k, v) :: rest else (k', v') :: dictSet rest k v

theorem dictGet_dictSet_same {K V : Type} [DecidableEq K]
    (t : List (K × V)) (k : K) (v : V) (d : V) :
    dictGet (dictSet t k v) k d = v := by
  induction t with
  | nil => simp [dictGet, dictSet]
  | cons p rest ih =>
      obtain ⟨k', v'⟩ := p
      by_cases h : k' = k
      · simp [dictGet, dictSet, h]
      · simp [dictGet, dictSet, h, ih]

/-- A player position: a 2-D grid coordinate (a Python tuple) or a
scalar track position (a Python int, used by the racing genre). -/
inductive Pos where
  | cell (x y : Nat)
  | track (n : Nat)
deriving DecidableEq, Repr

/-- The fields of the game-state dictionary that the agent reads
(`state.get(...)` with the source's defaults for absent keys;
`can_collect_resource` / `can_attack` default to `False`). -/
structure ViewState where
  player_positions : List (Nat × Pos)
  player_resources : List (Nat × Int)
  turn : Nat
  board_size : Nat
  genre : String
  track_length : Nat
  can_collect_resource : Bool
  can_attack : Bool
deriving DecidableEq, Repr

/-- `max(xs, default=d)` in Python: the maximum of a nonempty list,
the default for an empty one. -/
def pyMax (l : List ℚ) (d : ℚ) : ℚ :=
  match l with
  | [] => d
  | x :: xs => xs.foldl max x

/-- `QLearningPlayer.get_state_key`: own position, opponent count,
own resources, turn mod 10, joined with underscores. -/
def get_state_key (player_id : Nat) (s : ViewState) : String :=
  let player_pos := dictGet s.player_positions player_id (Pos.cell 0 0)
  let pos_str := match player_pos with
    | Pos.cell x y => toString x ++ "_" ++ toString y
    | Pos.track n => toString n
  let opponent_count := (s.player_positions.filter (fun p => p.1 ≠ player_id)).length
  let resources := dictGet s.player_resources player_id 0
  pos_str ++ "_" ++ toString opponent_count ++ "_" ++ toString resources ++ "_" ++
    toString (s.turn % 10)

/-- `QLearningPlayer.get_valid_actions`. -/
def get_valid_actions (player_id : Nat) (s : ViewState) : List String :=
  let player_pos := dictGet s.player_positions player_id (Pos.cell 0 0)
  let actions : List String :=
    if s.genre == "racing" || (match player_pos with | Pos.track _ => true | _ => false) then
      (match player_pos with
       | Pos.track n => if n < s.track_length - 1 then ["move_right", "move_down"] else []
       | Pos.cell _ _ => []) ++ ["stay"]
    else
      match player_pos with
      | Pos.cell x y =>
          (if 0 < x then ["move_left"] else []) ++
          (if x < s.board_size - 1 then ["move_right"] else []) ++
          (if 0 < y then ["move_up"] else []) ++
          (if y < s.board_size - 1 then ["move_down"] else []) ++
          (if s.can_collect_resource then ["collect"] else []) ++
          (if s.can_attack then ["attack"] else []) ++
          ["stay"]
      | Pos.track _ => ["stay"]
  if actions = [] then ["stay"] else actions

/-- The mutable state of a `QLearningPlayer`. -/
structure Agent where
  player_id : Nat
  learning_rate : ℚ
  discount_factor : ℚ
  epsilon : ℚ
  q_table : List ((String × String) × ℚ)
  wins : Nat
  games_played : Nat
  total_reward : ℚ
deriving DecidableEq, Repr

/-- `QLearningPlayer.get_q_value`: table lookup defaulting to `0.0`. -/
def get_q_value (ag : Agent) (state_key : String) (action : String) : ℚ :=
  dictGet ag.q_table (state_key, action) 0

/-- `QLearningPlayer.update_q_value`: one-step TD update
`Q(s,a) ← Q(s,a) + α·(target − Q(s,a))` plus the
`total_reward += reward` bookkeeping. -/
def update_q_value (ag : Agent) (state : ViewState) (action : String) (reward : ℚ)
    (next_state : ViewState) (done : Bool) : Agent :=
  let state_key := get_state_key ag.player_id state
  let current_q := get_q_value ag state_key action
  let target_q :=
    if done then reward
    else
      let next_state_key := get_state_key ag.player_id next_state
      let valid_next_actions := get_valid_actions ag.player_id next_state
      let max_next_q :=
        pyMax (valid_next_actions.map (fun a => get_q_value ag next_state_key a)) 0
      reward + ag.discount_factor * max_next_q
  let new_q := current_q + ag.learning_rate * (target_q - current_q)
  { ag with
    q_table := dictSet ag.q_table (state_key, action) new_q
    total_reward := ag.total_reward + reward }

/-- `QLearningPlayer.decay_epsilon`: `epsilon ← max(min_epsilon, epsilon·decay_rate)`. -/
def decay_epsilon (epsilon decay_rate min_epsilon : ℚ) : ℚ :=
  max min_epsilon (epsilon * decay_rate)

/-- `decay_epsilon` applied `k` times starting from `epsilon`. -/
def decayIter (epsilon decay_rate min_epsilon : ℚ) : Nat → ℚ
  | 0 => epsilon
  | k + 1 => decay_epsilon (decayIter epsilon decay_rate min_epsilon k) decay_rate min_epsilon

/-! ### Model persistence (`save_model` / `load_model`)

The artifact is a JSON object; its parsed form is modelled by `ModelData`.
`Option` marks fields that may be absent from a parsed file. Of the
serialized stats dictionary only `wins`, `games_played` and `total_reward`
matter: `load_model` never reads the remaining `get_stats` fields
(`win_rate`, `avg_reward`, `q_table_size`, `epsilon`, `player_id`). -/

/-- The stats object inside a parsed model file. -/
structure StatsData where
  wins : Option Nat
  games_played : Option Nat
  total_reward : Option ℚ
deriving DecidableEq, Repr

/-- A parsed model file. -/
structure ModelData where
  player_id : Option Nat
  q_table : Option (List (String × ℚ))
  stats : Option StatsData
deriving DecidableEq, Repr

/-- What `load_model` receives: `ioError` covers a missing file and
content that fails to parse as JSON (`open`/`json.load` raises before
any mutation); `parsed` carries the parsed object. -/
inductive LoadInput where
  | ioError
  | parsed (d : ModelData)
deriving DecidableEq, Repr

/-- `QLearningPlayer.save_model`: the written artifact, with each table
entry keyed by `f"{state_key}_{action}"`. -/
def save_model (ag : Agent) : ModelData :=
  { player_id := some ag.player_id
    q_table := some (ag.q_table.map (fun p => (p.1.1 ++ "_" ++ p.1.2, p.2)))
    stats := some { wins := some ag.wins
                    games_played := some ag.games_played
                    total_reward := some ag.total_reward } }

/-- `key.rsplit('_', 1)` on the underlying character list: split at the
LAST underscore; `none` when the key holds no underscore (in which case
the two-variable unpacking in the source raises `ValueError`). -/
def rsplitLastUnderscore : List Char → Option (List Char × List Char)
  | [] => none
  | c :: rest =>
      match rsplitLastUnderscore rest with
      | some (a, b) => some (c :: a, b)
      | none => if c = '_' then some ([], rest) else none

/-- `key.rsplit('_', 1)` producing `(state, action)`. -/
def rsplitKey (key : String) : Option (String × String) :=
  match rsplitLastUnderscore key.toList with
  | some (a, b) => some (String.mk a, String.mk b)
  | none => none

/-- The reconstruction loop of `load_model`: builds the table entry by
entry; a key without an underscore raises mid-loop, leaving the table
built so far and signalling (`false`) that the stats-restore lines are
never reached. -/
def loadEntries : List (String × ℚ) → List ((String × String) × ℚ) →
    List ((String × String) × ℚ) × Bool
  | [], acc => (acc, true)
  | (key, value) :: rest, acc =>
      match rsplitKey key with
      | none => (acc, false)
      | some (state, action) => loadEntries rest (dictSet acc (state, action) value)

/-- `QLearningPlayer.load_model`. The source clears `self.q_table` to `{}`
BEFORE reading `model_data['q_table']`, so a parsed file without that key
leaves the table cleared when the `KeyError` is caught; every exception is
caught and reported, and the function returns normally. -/
def load_model (ag : Agent) (input : LoadInput) : Agent :=
  match input with
  | LoadInput.ioError => ag
  | LoadInput.parsed d =>
      match d.q_table with
      | none => { ag with q_table := [] }
      | some entries =>
          let (tbl, ok) := loadEntries entries []
          if ok then
            match d.stats with
            | none => { ag with q_table := tbl }
            | some st =>
                { ag with
                  q_table := tbl
                  wins := st.wins.getD 0
                  games_played := st.games_played.getD 0
                  total_reward := st.total_reward.getD 0 }
          else { ag with q_table := tbl }

/-! ### Game simulator (`game_simulator.py`)

The game state is a Python dict whose `player_positions`,
`player_resources` and `player_scores` values are nested dicts.
`dict.copy()` is shallow, so we model the nested dicts through a heap:
the top-level state (`TopState`) holds references (`Nat` addresses, one
address space per field), and the heap maps each address to the
dictionary stored there. Copying the top-level dict copies the
references; mutating a nested dict mutates the heap cell both copies
point at. The `board` numpy array is allocated for visualization only
and carries no simulation logic, so it is not modelled; the randomness
of a dice roll and of a contested territory claim is passed in
explicitly as an `Rng` value. -/

/-- The game configuration fields the simulator reads, with the
source's `.get` defaults applied by the (external) producer; the
goal position stays optional because its default is computed from
the board size at each use site. -/
structure GameConfig where
  genre : String
  num_players : Nat
  board_size : Nat
  track_length : Nat
  pieces_per_player : Nat
  win_type : String
  target_resources : Int
  control_percentage : ℚ
  goal_position : Option (Nat × Nat)
  base_movement : Nat
  dice_modifier : Bool
  collection_rate : Int
deriving DecidableEq, Repr

/-- The heap of nested per-player dictionaries, one address space per
top-level key. -/
structure Heap where
  posH : Nat → List (Nat × Pos)
  resH : Nat → List (Nat × Int)
  scoreH : Nat → List (Nat × Int)

/-- The top-level game-state dictionary: scalar fields plus references
into the heap for the three nested dictionaries. `eliminated_players`
is never mutated by the source, so it is stored directly. -/
structure TopState where
  turn : Nat
  board_size : Nat
  genre : String
  track_length : Nat
  posRef : Nat
  resRef : Nat
  scoreRef : Nat
  eliminated_players : List Nat
  game_over : Bool
  winner : Option Nat
deriving Repr

/-- `state['player_positions'][pid] = v` through the heap. -/
def heapSetPos (h : Heap) (ref pid : Nat) (v : Pos) : Heap :=
  { h with posH := fun r => if r = ref then dictSet (h.posH r) pid v else h.posH r }

/-- `state['player_resources'][pid] = v` through the heap. -/
def heapSetRes (h : Heap) (ref pid : Nat) (v : Int) : Heap :=
  { h with resH := fun r => if r = ref then dictSet (h.resH r) pid v else h.resH r }

/-- `state['player_scores'][pid] = v` through the heap. -/
def heapSetScore (h : Heap) (ref pid : Nat) (v : Int) : Heap :=
  { h with scoreH := fun r => if r = ref then dictSet (h.scoreH r) pid v else h.scoreH r }

/-- The explicit random draws one action execution may consume:
`dice` is `random.randint(0, 2)` (its range is irrelevant to the
properties proved here) and `claim` is `random.random() > 0.7`. -/
structure Rng where
  dice : Nat
  claim : Bool
deriving DecidableEq, Repr

/-- `GameSimulator._get_starting_position`: the four board corners,
cycled by player id. -/
def get_starting_position (cfg : GameConfig) (player_id : Nat) : Pos :=
  let bs := cfg.board_size
  let corners := [Pos.cell 0 0, Pos.cell 0 (bs - 1), Pos.cell (bs - 1) 0,
                  Pos.cell (bs - 1) (bs - 1)]
  corners.getD (player_id % corners.length) (Pos.cell 0 0)

/-- The starting position one player receives in
`GameSimulator.initialize_game_state`. -/
def startingPosOf (cfg : GameConfig) (player_id : Nat) : Pos :=
  if cfg.pieces_per_player = 1 then
    if cfg.genre ≠ "racing" then Pos.cell 0 0 else Pos.track 0
  else get_starting_position cfg player_id

/-- `GameSimulator.initialize_game_state`: allocates the three nested
dictionaries (at address 0 of each address space of a fresh heap) and
fills them with the per-player loop of the source. -/
def initialize_game_state (cfg : GameConfig) : Heap × TopState :=
  let players := List.range cfg.num_players
  let h : Heap :=
    { posH := fun _ => players.map (fun pid => (pid, startingPosOf cfg pid))
      resH := fun _ => players.map (fun pid => (pid, (0 : Int)))
      scoreH := fun _ => players.map (fun pid => (pid, (0 : Int))) }
  let s : TopState :=
    { turn := 0
      board_size := cfg.board_size
      genre := cfg.genre
      track_length := cfg.track_length
      posRef := 0
      resRef := 0
      scoreRef := 0
      eliminated_players := []
      game_over := false
      winner := none }
  (h, s)

/-- `GameSimulator._move_position`: one-step move clamped to the board. -/
def move_position (cfg : GameConfig) (current_pos : Nat × Nat) (action : String) :
    Nat × Nat :=
  let (x, y) := current_pos
  if action = "move_left" then (x - 1, y)
  else if action = "move_right" then (min (cfg.board_size - 1) (x + 1), y)
  else if action = "move_up" then (x, y - 1)
  else if action = "move_down" then (x, min (cfg.board_size - 1) (y + 1))
  else (x, y)

/-- Extract the 2-D coordinate of a position. A scalar position reaching
a 2-D executor would raise a `TypeError` on unpacking in the source;
that case is unreachable for genre-consistent states and is totalised
as `(0, 0)` here. -/
def cellOf : Pos → Nat × Nat
  | Pos.cell x y => (x, y)
  | Pos.track _ => (0, 0)

/-- Extract the scalar coordinate of a racing position. A 2-D position
reaching the racing executor would raise a `TypeError` in the source;
unreachable for genre-consistent states, totalised as `0`. -/
def trackOf : Pos → Nat
  | Pos.track n => n
  | Pos.cell _ _ => 0

/-- `GameSimulator._is_unclaimed_territory`: occupied cells are claimed,
otherwise a random draw decides. A scalar (racing) position stored in the
dictionary compares unequal to the 2-D coordinate, as `int == tuple` is
`False` in Python. -/
def is_unclaimed_territory (h : Heap) (s : TopState) (rng : Rng)
    (position : Nat × Nat) : Bool :=
  if (h.posH s.posRef).any (fun p => p.2 = Pos.cell position.1 position.2) then false
  else rng.claim

/-- `GameSimulator._execute_racing_action`: mutates the shared nested
dictionaries through the heap and returns the reward. -/
def execute_racing_action (cfg : GameConfig) (rng : Rng) (h : Heap) (s : TopState)
    (player_id : Nat) (action : String) : Heap × ℚ :=
  let current_pos := trackOf (dictGet (h.posH s.posRef) player_id (Pos.cell 0 0))
  let track_length := cfg.track_length
  let movement : Nat :=
    if action = "move_right" ∨ action = "move_down" then
      cfg.base_movement + (if cfg.dice_modifier then rng.dice else 0)
    else 0
  let new_pos := min (current_pos + movement) (track_length - 1)
  let h := heapSetPos h s.posRef player_id (Pos.track new_pos)
  let h := heapSetScore h s.scoreRef player_id (new_pos : Int)
  let reward : ℚ := (movement : ℚ) * (1 / 2)
  let reward := if new_pos ≥ track_length - 1 then reward + 100 else reward
  (h, reward)

/-- `GameSimulator._execute_resource_action`. -/
def execute_resource_action (cfg : GameConfig) (h : Heap) (s : TopState)
    (player_id : Nat) (action : String) : Heap × ℚ :=
  let (h, reward) :=
    if action = "collect" then
      let rate := cfg.collection_rate
      let h := heapSetRes h s.resRef player_id
        (dictGet (h.resH s.resRef) player_id 0 + rate)
      (h, (rate : ℚ))
    else if action.startsWith "move_" then
      let pos := cellOf (dictGet (h.posH s.posRef) player_id (Pos.cell 0 0))
      let new_pos := move_position cfg pos action
      let h := heapSetPos h s.posRef player_id (Pos.cell new_pos.1 new_pos.2)
      (h, (1 / 10 : ℚ))
    else (h, 0)
  let h := heapSetScore h s.scoreRef player_id (dictGet (h.resH s.resRef) player_id 0)
  (h, reward)

/-- `GameSimulator._execute_territory_action`. -/
def execute_territory_action (cfg : GameConfig) (rng : Rng) (h : Heap) (s : TopState)
    (player_id : Nat) (action : String) : Heap × ℚ :=
  if action.startsWith "move_" then
    let pos := cellOf (dictGet (h.posH s.posRef) player_id (Pos.cell 0 0))
    let new_pos := move_position cfg pos action
    let (h, reward) :=
      if is_unclaimed_territory h s rng new_pos then
        (heapSetScore h s.scoreRef player_id
          (dictGet (h.scoreH s.scoreRef) player_id 0 + 3), (5 : ℚ))
      else (h, 0)
    (heapSetPos h s.posRef player_id (Pos.cell new_pos.1 new_pos.2), reward)
  else (h, 0)

/-- `GameSimulator._execute_strategy_action`. -/
def execute_strategy_action (cfg : GameConfig) (h : Heap) (s : TopState)
    (player_id : Nat) (action : String) : Heap × ℚ :=
  let goal_pos := cfg.goal_position.getD (cfg.board_size - 1, cfg.board_size - 1)
  if action.startsWith "move_" then
    let pos := cellOf (dictGet (h.posH s.posRef) player_id (Pos.cell 0 0))
    let new_pos := move_position cfg pos action
    let old_dist := ((pos.1 : Int) - goal_pos.1).natAbs + ((pos.2 : Int) - goal_pos.2).natAbs
    let new_dist := ((new_pos.1 : Int) - goal_pos.1).natAbs +
      ((new_pos.2 : Int) - goal_pos.2).natAbs
    let reward : ℚ := if new_dist < old_dist then 1 else if new_dist > old_dist then -(1/2) else 0
    let h := heapSetPos h s.posRef player_id (Pos.cell new_pos.1 new_pos.2)
    let h := heapSetScore h s.scoreRef player_id
      (dictGet (h.scoreH s.scoreRef) player_id 0 + 1)
    (h, reward)
  else (h, 0)

/-- `GameSimulator._execute_action`: `next_state = state.copy()` (a
shallow copy — the returned top state carries the same references), the
genre dispatch, and the fixed per-turn cost. `done` is always `False`
here. -/
def execute_action (cfg : GameConfig) (rng : Rng) (h : Heap) (state : TopState)
    (player_id : Nat) (action : String) : Heap × TopState × ℚ × Bool :=
  let next_state := state
  let hr :=
    if cfg.genre = "racing" then execute_racing_action cfg rng h next_state player_id action
    else if cfg.genre = "resource_management" then
      execute_resource_action cfg h next_state player_id action
    else if cfg.genre = "territory_control" then
      execute_territory_action cfg rng h next_state player_id action
    else execute_strategy_action cfg h next_state player_id action
  (hr.1, next_state, hr.2 - 1/100, false)

/-- `GameSimulator._check_win_condition`. For `race_finish`, a 2-D
position compared against the track end would raise a `TypeError` in
the source; unreachable for genre-consistent states, totalised as
`false`. In the fallback branch, a scalar position compared against the
goal tuple is `False` (`int == tuple` in Python). -/
def check_win_condition (cfg : GameConfig) (h : Heap) (state : TopState)
    (player_id : Nat) : Bool :=
  if cfg.win_type = "race_finish" then
    match dictGet (h.posH state.posRef) player_id (Pos.cell 0 0) with
    | Pos.track n => n ≥ cfg.track_length - 1
    | Pos.cell _ _ => false
  else if cfg.win_type = "resource_collection" then
    dictGet (h.resH state.resRef) player_id 0 ≥ cfg.target_resources
  else if cfg.win_type = "territory_control" then
    ((dictGet (h.scoreH state.scoreRef) player_id 0 : Int) : ℚ) ≥ cfg.control_percentage * 100
  else
    match dictGet (h.posH state.posRef) player_id (Pos.cell 0 0) with
    | Pos.cell x y => (x, y) = cfg.goal_position.getD (cfg.board_size - 1, cfg.board_size - 1)
    | Pos.track _ => false

/-- The read-only view of a game-state dictionary that an agent sees:
dereference the nested dictionaries through the heap. The simulator
never stores `can_collect_resource` / `can_attack` keys, so they
resolve to the source's `False` defaults. -/
def viewOf (h : Heap) (s : TopState) : ViewState :=
  { player_positions := h.posH s.posRef
    player_resources := h.resH s.resRef
    turn := s.turn
    board_size := s.board_size
    genre := s.genre
    track_length := s.track_length
    can_collect_resource := false
    can_attack := false }

/-- The `next_state` as it stands when `update_q_value` is invoked in
`GameSimulator.simulate_game`: the shallow copy produced by
`_execute_action`, with `game_over`/`winner` stamped on it when the win
condition fired. -/
def stepNextState (cfg : GameConfig) (h : Heap) (next_state : TopState)
    (player_id : Nat) : TopState :=
  if check_win_condition cfg h next_state player_id then
    { next_state with game_over := true, winner := some player_id }
  else next_state

/-- `SimulationResult`: the fields of the results dictionary returned by
`simulate_game` (the optional render history is not modelled). -/
structure SimulationResult where
  winner : Option Nat
  turns : Nat
  final_scores : List (Nat × Int)
  final_resources : List (Nat × Int)
deriving DecidableEq, Repr

/-- A deciding policy standing for `ai_player.choose_action(state)`:
the action a player returns when shown the current state. The
simulator calls it duck-typed, so it is a parameter here. -/
def Policy := Nat → Heap → TopState → String

/-- The inner per-player loop of `simulate_game`: each listed
non-eliminated player chooses an action, the action executes, the win
condition is checked against the new state, and termination breaks out.
The Q-value updates performed when training mutate only the agents, never
the game state or the returned result, so they are not threaded here
(`update_q_value` models them separately). -/
def runPlayers (cfg : GameConfig) (policy : Policy) (rng : Rng) :
    Heap → TopState → List Nat → Heap × TopState
  | h, state, [] => (h, state)
  | h, state, player_id :: rest =>
      if player_id ∈ state.eliminated_players then runPlayers cfg policy rng h state rest
      else
        let action := policy player_id h state
        let (h, next_state, _reward, _done) := execute_action cfg rng h state player_id action
        let next_state := stepNextState cfg h next_state player_id
        if next_state.game_over then (h, next_state)
        else runPlayers cfg policy rng h next_state rest

/-- The outer turn loop of `simulate_game` over the remaining turn
indices: sets `state['turn']`, runs every player, and breaks on
termination. -/
def runTurns (cfg : GameConfig) (policy : Policy) (rng : Rng) :
    Heap → TopState → List Nat → Heap × TopState
  | h, state, [] => (h, state)
  | h, state, t :: ts =>
      let state := { state with turn := t }
      let (h, state) := runPlayers cfg policy rng h state (List.range cfg.num_players)
      if state.game_over then (h, state) else runTurns cfg policy rng h state ts

/-- `GameSimulator.simulate_game` (max_turns = 100): initialize, run the
turn loop, and package the results dictionary. Per-agent bookkeeping
(`record_game_result`, `decay_epsilon`) mutates only the agents and is
modelled separately. -/
def simulate_game (cfg : GameConfig) (policy : Policy) (rng : Rng) : SimulationResult :=
  let (h, state) := initialize_game_state cfg
  let (h, state) := runTurns cfg policy rng h state (List.range 100)
  { winner := state.winner
    turns := state.turn
    final_scores := h.scoreH state.scoreRef
    final_resources := h.resH state.resRef }

/-! ### Balance analyzer (`balance_analyzer.py`)

Only the report fields some verified property concerns are modelled:
`game_length_std` and `complexity_score` take a square root of a
rational (`np.std`), are irrational in general, and are read by no
claim, so they are omitted from the embedded report. -/

/-- The modelled fields of the analysis report. -/
structure Report where
  total_games : Nat
  win_distribution : List (Nat × ℚ)
  fairness_score : ℚ
  average_game_length : ℚ
  engagement_score : ℚ
  balance_grade : String
deriving DecidableEq, Repr

/-- `np.mean` on a rational list (the source guards every call against
the empty list). -/
def npMean (l : List ℚ) : ℚ := l.sum / l.length

/-- `np.var` on a rational list: population variance. -/
def npVar (l : List ℚ) : ℚ :=
  (l.map (fun x => (x - npMean l) ^ 2)).sum / l.length

/-- `GameBalanceAnalyzer._calculate_win_distribution`. -/
def calculate_win_distribution (winners : List Nat) (num_players : Nat) :
    List (Nat × ℚ) :=
  if winners = [] then (List.range num_players).map (fun i => (i, (0 : ℚ)))
  else
    let total_games := winners.length
    (List.range num_players).map
      (fun player_id => (player_id, ((winners.count player_id : ℚ) / total_games) * 100))

/-- `GameBalanceAnalyzer._calculate_fairness_score`. -/
def calculate_fairness_score (winners : List Nat) (num_players : Nat) : ℚ :=
  if winners = [] then 0
  else
    let win_dist := calculate_win_distribution winners num_players
    let win_percentages := win_dist.map (fun p => p.2)
    let ideal_percentage : ℚ := 100 / num_players
    let variance := npVar win_percentages
    let max_variance := ideal_percentage ^ 2
    100 * (1 - min (variance / max_variance) 1)

/-- `GameBalanceAnalyzer._calculate_engagement`. -/
def calculate_engagement (results : List SimulationResult) : ℚ :=
  if results = [] then 0
  else
    let turns := results.map (fun r => (r.turns : ℚ))
    let avg_turns := npMean turns
    let length_engagement : ℚ :=
      if 20 ≤ avg_turns ∧ avg_turns ≤ 40 then 100
      else if avg_turns < 20 then (avg_turns / 20) * 100
      else max 0 (100 - (avg_turns - 40) * 2)
    (length_engagement + 50) / 2

/-- `GameBalanceAnalyzer._calculate_balance_grade`. -/
def calculate_balance_grade (fairness : ℚ) : String :=
  if fairness ≥ 90 then "A (Excellent)"
  else if fairness ≥ 75 then "B (Good)"
  else if fairness ≥ 60 then "C (Fair)"
  else if fairness ≥ 45 then "D (Poor)"
  else "F (Unbalanced)"

/-- `GameBalanceAnalyzer._empty_analysis`: the literal dictionary the
source returns for an empty batch (its `win_distribution` is `{}`). -/
def empty_analysis : Report :=
  { total_games := 0
    win_distribution := []
    fairness_score := 0
    average_game_length := 0
    engagement_score := 0
    balance_grade := "N/A" }

/-- `GameBalanceAnalyzer.analyze_game_results`. -/
def analyze_game_results (simulation_results : List SimulationResult)
    (num_players : Nat) : Report :=
  if simulation_results = [] then empty_analysis
  else
    let winners := simulation_results.filterMap (fun r => r.winner)
    let turns := simulation_results.map (fun r => (r.turns : ℚ))
    let fairness := calculate_fairness_score winners num_players
    { total_games := simulation_results.length
      win_distribution := calculate_win_distribution winners num_players
      fairness_score := fairness
      average_game_length := if turns = [] then 0 else npMean turns
      engagement_score := calculate_engagement simulation_results
      balance_grade := calculate_balance_grade fairness }

/-! ## Concrete fixtures used by the theorems below -/

/-- A strategy configuration whose win-condition type is an
unrecognized string. -/
def mysteryCfg : GameConfig :=
  { genre := "strategy"
    num_players := 1
    board_size := 8
    track_length := 30
    pieces_per_player := 1
    win_type := "mystery_type"
    target_resources := 50
    control_percentage := 6/10
    goal_position := none
    base_movement := 2
    dice_modifier := false
    collection_rate := 2 }

/-- A heap holding one player standing on the default goal cell `(7, 7)`
of an 8×8 board. -/
def goalHeap : Heap :=
  { posH := fun _ => [(0, Pos.cell 7 7)]
    resH := fun _ => [(0, 0)]
    scoreH := fun _ => [(0, 0)] }

/-- The top state matching `goalHeap`. -/
def goalState : TopState :=
  { turn := 0
    board_size := 8
    genre := "strategy"
    track_length := 30
    posRef := 0
    resRef := 0
    scoreRef := 0
    eliminated_players := []
    game_over := false
    winner := none }

/-- An agent with a nonempty value table and nonzero stats, used to
exercise persistence. -/
def richAgent : Agent :=
  { player_id := 0
    learning_rate := 1/10
    discount_factor := 9/10
    epsilon := 2/10
    q_table := [(("0_0_1_0_0", "move_right"), 1)]
    wins := 2
    games_played := 5
    total_reward := 7 }

/-- The resource-management scenario configuration: win target 30,
collection rate 3, one player. -/
def resourceCfg : GameConfig :=
  { genre := "resource_management"
    num_players := 1
    board_size := 8
    track_length := 30
    pieces_per_player := 1
    win_type := "resource_collection"
    target_resources := 30
    control_percentage := 6/10
    goal_position := none
    base_movement := 2
    dice_modifier := false
    collection_rate := 3 }

/-- The policy of an agent that chooses `collect` on every turn. -/
def collectPolicy : Policy := fun _ _ _ => "collect"

/-- A two-player strategy configuration with a single piece per player
(the generator's default), on an 8×8 board. -/
def strategyCfg2 : GameConfig :=
  { mysteryCfg with win_type := "position_or_elimination", num_players := 2 }

/-- A two-player racing configuration with two pieces per player. -/
def racingCfg2 : GameConfig :=
  { strategyCfg2 with genre := "racing", pieces_per_player := 2 }

/-! ## Claim theorems -/

/-- `dictGet` on a dictionary built by a keyed comprehension returns the
generating function's value at any generated key. -/
theorem dictGet_map_self {V : Type} (l : List Nat) (f : Nat → V) (pid : Nat) (d : V)
    (hmem : pid ∈ l) :
    dictGet (l.map (fun i => (i, f i))) pid d = f pid := by
  induction l with
  | nil => cases hmem
  | cons a rest ih =>
      by_cases ha : a = pid
      · subst ha; simp [dictGet]
      · have : pid ∈ rest := by
          rcases List.mem_cons.mp hmem with h | h
          · exact absurd h.symm ha
          · exact h
        simp [dictGet, ha, ih this]

/-- C1. As stated, the claim is FALSE: with the unrecognized
win-condition type `"mystery_type"` and the player standing on the
default goal cell, `_check_win_condition` returns `True`, not `False` —
the `else` branch applies the `position_or_elimination` rule to every
type that is not one of the three named ones, and the trailing
`return False` is unreachable. -/
theorem C1_counterexample :
    check_win_condition mysteryCfg goalHeap goalState 0 = true := by decide

/-- C1 (amended). For every configuration, state and player, when the
configured win-condition type is none of `race_finish`,
`resource_collection`, `territory_control`, the win check behaves as the
`position_or_elimination` rule: it is satisfied exactly when the
player's position equals the configured goal position (a scalar racing
position never equals the goal tuple). -/
theorem C1_unrecognized_type_uses_goal_rule (cfg : GameConfig) (h : Heap)
    (s : TopState) (player_id : Nat)
    (h1 : cfg.win_type ≠ "race_finish")
    (h2 : cfg.win_type ≠ "resource_collection")
    (h3 : cfg.win_type ≠ "territory_control") :
    check_win_condition cfg h s player_id =
      (match dictGet (h.posH s.posRef) player_id (Pos.cell 0 0) with
       | Pos.cell x y =>
           decide ((x, y) = cfg.goal_position.getD (cfg.board_size - 1, cfg.board_size - 1))
       | Pos.track _ => false) := by
  simp [check_win_condition, h1, h2, h3]

/-- C1 witness: the amended theorem applied to the concrete
unrecognized-type fixture. -/
theorem C1_witness :
    check_win_condition mysteryCfg goalHeap goalState 0 =
      (match dictGet (goalHeap.posH goalState.posRef) 0 (Pos.cell 0 0) with
       | Pos.cell x y =>
           decide ((x, y) =
             mysteryCfg.goal_position.getD
               (mysteryCfg.board_size - 1, mysteryCfg.board_size - 1))
       | Pos.track _ => false) :=
  C1_unrecognized_type_uses_goal_rule mysteryCfg goalHeap goalState 0
    (by decide) (by decide) (by decide)

/-- C2. As stated, the claim is FALSE: a malformed model file that
parses as JSON but lacks the `q_table` key clears the agent's value
table, because the source assigns `self.q_table = {}` before reading
`model_data['q_table']`; here the agent's nonempty table ends up empty. -/
theorem C2_counterexample :
    (load_model richAgent (LoadInput.parsed
        { player_id := none, q_table := none, stats := none })).q_table = [] ∧
      richAgent.q_table ≠ [] := by
  constructor
  · rfl
  · decide

/-- C2 (amended). When the model file is missing or its content fails to
parse (`open`/`json.load` raises), `load_model` performs no mutation:
the agent is returned exactly as it was. When the content parses but
lacks the `q_table` key, the value table is cleared before the failure
is caught, while wins, games played and total reward stay unchanged. -/
theorem C2_load_model_error_cases :
    (∀ ag : Agent, load_model ag LoadInput.ioError = ag) ∧
      (∀ (ag : Agent) (pid : Option Nat) (st : Option StatsData),
        load_model ag (LoadInput.parsed
          { player_id := pid, q_table := none, stats := st }) =
          { ag with q_table := [] }) :=
  ⟨fun _ => rfl, fun _ _ _ => rfl⟩

/-- C3. The save/load round trip does NOT reconstruct the value table:
the artifact keys entries by `f"{state_key}_{action}"`, and `load_model`
splits at the LAST underscore, so an action containing an underscore
(such as `move_right`) is mis-split. For an agent holding the single
entry `(("0_0_1_0_0", "move_right"), 1)`, reloading its own saved
artifact yields the entry `(("0_0_1_0_0_move", "right"), 1)` instead:
the original pair now reads as `0`. The summary stats do round-trip. -/
theorem C3_roundtrip_mis_splits_keys :
    (load_model richAgent (LoadInput.parsed (save_model richAgent))).q_table =
        [(("0_0_1_0_0_move", "right"), 1)] ∧
      get_q_value (load_model richAgent (LoadInput.parsed (save_model richAgent)))
        "0_0_1_0_0" "move_right" = 0 ∧
      (load_model richAgent (LoadInput.parsed (save_model richAgent))).q_table ≠
        richAgent.q_table ∧
      (load_model richAgent (LoadInput.parsed (save_model richAgent))).wins =
        richAgent.wins ∧
      (load_model richAgent (LoadInput.parsed (save_model richAgent))).games_played =
        richAgent.games_played ∧
      (load_model richAgent (LoadInput.parsed (save_model richAgent))).total_reward =
        richAgent.total_reward := by
  refine ⟨rfl, rfl, ?_, rfl, rfl, rfl⟩
  decide

/-- C4. As stated, the claim is FALSE: for the configured player count
2, analyzing an empty batch returns a win distribution with NO entries
(`_empty_analysis` returns the literal `{}`), not one zero entry per
configured player. -/
theorem C4_counterexample :
    (analyze_game_results [] 2).win_distribution.length = 0 ∧ (0 : Nat) ≠ 2 := by
  constructor
  · rfl
  · decide

/-- C4 (amended). For every configured player count, analyzing an empty
batch returns the defined all-zero report: fairness score `0.0`, the
grade `"N/A"` (none of the five letter grades), and an EMPTY win
distribution. -/
theorem C4_empty_batch_report (num_players : Nat) :
    (analyze_game_results [] num_players).fairness_score = 0 ∧
      (analyze_game_results [] num_players).win_distribution = [] ∧
      (analyze_game_results [] num_players).balance_grade = "N/A" ∧
      (analyze_game_results [] num_players).balance_grade ∉
        ["A (Excellent)", "B (Good)", "C (Fair)", "D (Poor)", "F (Unbalanced)"] := by
  refine ⟨rfl, rfl, rfl, ?_⟩
  have hg : (analyze_game_results [] num_players).balance_grade = "N/A" := rfl
  rw [hg]
  decide

/-- C5. As stated, the claim is FALSE on both sides of the genre split.
With a single piece per player (the default), a two-player strategy game
places player 1 at `(0, 0)`, not at the cycled corner `(0, 7)`; and with
two pieces per player, a racing game places player 0 at the corner tuple
`(0, 0)`, not at the scalar track position 0. -/
theorem C5_counterexample :
    (dictGet ((initialize_game_state strategyCfg2).1.posH
        (initialize_game_state strategyCfg2).2.posRef) 1 (Pos.track 99) =
        Pos.cell 0 0 ∧
      Pos.cell 0 0 ≠ Pos.cell 0 7) ∧
      (dictGet ((initialize_game_state racingCfg2).1.posH
          (initialize_game_state racingCfg2).2.posRef) 0 (Pos.cell 9 9) =
          Pos.cell 0 0 ∧
        Pos.cell 0 0 ≠ Pos.track 0) := by
  refine ⟨⟨?_, by decide⟩, ⟨?_, by decide⟩⟩ <;> decide

/-- C5 (amended). Initialization branches on `pieces_per_player`, not on
the genre alone: with a single piece per player, racing players start at
the scalar track position 0 and players of every other genre start at
`(0, 0)`; with more than one piece per player, every player (racing
included) starts at one of the four canonical corners of the size×size
board, cycled by player id. All per-player resource and score counters
start at 0. -/
theorem C5_initialization (cfg : GameConfig) (player_id : Nat)
    (hp : player_id < cfg.num_players) :
    dictGet ((initialize_game_state cfg).1.posH
        (initialize_game_state cfg).2.posRef) player_id (Pos.cell 0 0) =
      (if cfg.pieces_per_player = 1 then
        (if cfg.genre ≠ "racing" then Pos.cell 0 0 else Pos.track 0)
       else
        [Pos.cell 0 0, Pos.cell 0 (cfg.board_size - 1),
         Pos.cell (cfg.board_size - 1) 0,
         Pos.cell (cfg.board_size - 1) (cfg.board_size - 1)].getD
          (player_id % 4) (Pos.cell 0 0)) ∧
      dictGet ((initialize_game_state cfg).1.resH
        (initialize_game_state cfg).2.resRef) player_id 1 = 0 ∧
      dictGet ((initialize_game_state cfg).1.scoreH
        (initialize_game_state cfg).2.scoreRef) player_id 1 = 0 := by
  have hmem : player_id ∈ List.range cfg.num_players := List.mem_range.mpr hp
  refine ⟨?_, ?_, ?_⟩
  · rw [show (initialize_game_state cfg).1.posH
        (initialize_game_state cfg).2.posRef =
        (List.range cfg.num_players).map
          (fun pid => (pid, startingPosOf cfg pid)) from rfl]
    rw [dictGet_map_self _ _ _ _ hmem]
    rfl
  · rw [show (initialize_game_state cfg).1.resH
        (initialize_game_state cfg).2.resRef =
        (List.range cfg.num_players).map (fun pid => (pid, (0 : Int))) from rfl]
    rw [dictGet_map_self _ _ _ _ hmem]
  · rw [show (initialize_game_state cfg).1.scoreH
        (initialize_game_state cfg).2.scoreRef =
        (List.range cfg.num_players).map (fun pid => (pid, (0 : Int))) from rfl]
    rw [dictGet_map_self _ _ _ _ hmem]

/-- C5 witness: the amended theorem applied to the two-player strategy
configuration at player 1. -/
theorem C5_witness :
    dictGet ((initialize_game_state strategyCfg2).1.posH
        (initialize_game_state strategyCfg2).2.posRef) 1 (Pos.cell 0 0) =
      (if strategyCfg2.pieces_per_player = 1 then
        (if strategyCfg2.genre ≠ "racing" then Pos.cell 0 0 else Pos.track 0)
       else
        [Pos.cell 0 0, Pos.cell 0 (strategyCfg2.board_size - 1),
         Pos.cell (strategyCfg2.board_size - 1) 0,
         Pos.cell (strategyCfg2.board_size - 1) (strategyCfg2.board_size - 1)].getD
          (1 % 4) (Pos.cell 0 0)) ∧
      dictGet ((initialize_game_state strategyCfg2).1.resH
        (initialize_game_state strategyCfg2).2.resRef) 1 1 = 0 ∧
      dictGet ((initialize_game_state strategyCfg2).1.scoreH
        (initialize_game_state strategyCfg2).2.scoreRef) 1 1 = 0 :=
  C5_initialization strategyCfg2 1 (by decide)

/-- C6. As stated, the claim is FALSE about the reported turn count: in
the resource-management scenario (target 30, collection rate 3, one
always-collecting player) the player does win, but the returned
`SimulationResult` carries turn count 9, not 10 — the win lands on the
tenth collect, which happens at 0-based turn index 9, and `turns` is set
from `state['turn']`. -/
theorem C6_counterexample :
    (simulate_game resourceCfg collectPolicy { dice := 0, claim := false }).winner =
        some 0 ∧
      (simulate_game resourceCfg collectPolicy { dice := 0, claim := false }).turns ≠
        10 := by
  constructor
  · decide
  · decide

/-- In the resource-management configuration the genre dispatch selects
`_execute_resource_action`, which consumes no randomness, so the random
draws are irrelevant to `_execute_action`. -/
theorem exec_resource_rng_irrelevant (rng rng' : Rng) (h : Heap) (s : TopState)
    (pid : Nat) (a : String) :
    execute_action resourceCfg rng h s pid a = execute_action resourceCfg rng' h s pid a := by
  unfold execute_action
  have h1 : (resourceCfg.genre = "racing") = False := eq_false (by decide)
  have h2 : (resourceCfg.genre = "resource_management") = True := eq_true (by decide)
  simp only [h1, h2, if_false, if_true]

/-- The player loop is insensitive to the random draws whenever each
single action execution is. -/
theorem runPlayers_rng_congr (cfg : GameConfig) (pol : Policy) (rng rng' : Rng)
    (hE : ∀ h s pid a, execute_action cfg rng h s pid a = execute_action cfg rng' h s pid a) :
    ∀ (l : List Nat) (h : Heap) (s : TopState),
      runPlayers cfg pol rng h s l = runPlayers cfg pol rng' h s l := by
  intro l
  induction l with
  | nil => intro h s; rfl
  | cons p rest ih =>
      intro h s
      simp only [runPlayers]
      by_cases helim : p ∈ s.eliminated_players
      · simp only [helim, if_true]
        exact ih h s
      · simp only [helim, if_false]
        rw [hE]
        obtain ⟨h1, s1, r1, d1⟩ := execute_action cfg rng' h s p (pol p h s)
        by_cases hgo : (stepNextState cfg h1 s1 p).game_over
        · simp only [hgo, if_true]
        · simp only [hgo, if_false]
          exact ih h1 (stepNextState cfg h1 s1 p)

/-- The turn loop is insensitive to the random draws whenever each
single action execution is. -/
theorem runTurns_rng_congr (cfg : GameConfig) (pol : Policy) (rng rng' : Rng)
    (hE : ∀ h s pid a, execute_action cfg rng h s pid a = execute_action cfg rng' h s pid a) :
    ∀ (ts : List Nat) (h : Heap) (s : TopState),
      runTurns cfg pol rng h s ts = runTurns cfg pol rng' h s ts := by
  intro ts
  induction ts with
  | nil => intro h s; rfl
  | cons t rest ih =>
      intro h s
      simp only [runTurns]
      rw [runPlayers_rng_congr cfg pol rng rng' hE]
      obtain ⟨h1, s1⟩ :=
        runPlayers cfg pol rng' h { s with turn := t } (List.range cfg.num_players)
      by_cases hgo : s1.game_over
      · simp only [hgo, if_true]
      · simp only [hgo, if_false]
        exact ih h1 s1

/-- C6 (amended). In the resource-management scenario with win target
30 and collection rate 3, a single always-collecting player wins on the
tenth collect, and the returned `SimulationResult` has that player as
winner with turn count 9 (the 0-based index of the final turn),
whatever the random draws. -/
theorem C6_resource_scenario (rng : Rng) :
    (simulate_game resourceCfg collectPolicy rng).winner = some 0 ∧
      (simulate_game resourceCfg collectPolicy rng).turns = 9 := by
  have hsim : simulate_game resourceCfg collectPolicy rng =
      simulate_game resourceCfg collectPolicy { dice := 0, claim := false } := by
    unfold simulate_game
    rcases hI : initialize_game_state resourceCfg with ⟨h0, s0⟩
    simp only [hI]
    rw [runTurns_rng_congr resourceCfg collectPolicy rng { dice := 0, claim := false }
      (exec_resource_rng_irrelevant rng { dice := 0, claim := false })]
  rw [hsim]
  exact ⟨by decide, by decide⟩

/-- C7. For every agent, state, action, reward and next state, the
value update stores `value + α·(target − value)` at the current
(StateKey, Action) pair, where `target = reward` for a terminal
transition and otherwise `target = reward + γ·max` over the next
state's valid actions of their table values (unknown pairs reading as
0, and 0 when there are none); consequently, when the target equals the
currently stored value the update leaves the stored value unchanged. -/
theorem C7_update_rule (ag : Agent) (state : ViewState) (action : String) (reward : ℚ)
    (next_state : ViewState) (done : Bool) :
    get_q_value (update_q_value ag state action reward next_state done)
        (get_state_key ag.player_id state) action =
      get_q_value ag (get_state_key ag.player_id state) action +
        ag.learning_rate *
          ((if done then reward
            else reward + ag.discount_factor *
              pyMax ((get_valid_actions ag.player_id next_state).map
                (fun a => get_q_value ag (get_state_key ag.player_id next_state) a)) 0) -
            get_q_value ag (get_state_key ag.player_id state) action) ∧
      ((if done then reward
        else reward + ag.discount_factor *
          pyMax ((get_valid_actions ag.player_id next_state).map
            (fun a => get_q_value ag (get_state_key ag.player_id next_state) a)) 0) =
          get_q_value ag (get_state_key ag.player_id state) action →
        get_q_value (update_q_value ag state action reward next_state done)
          (get_state_key ag.player_id state) action =
        get_q_value ag (get_state_key ag.player_id state) action) := by
  constructor
  · simp only [update_q_value, get_q_value, dictGet_dictSet_same]
  · intro htgt
    simp only [get_q_value] at htgt
    simp only [update_q_value, get_q_value, dictGet_dictSet_same, htgt]
    ring

/-- C7 witness: a fresh agent, a terminal transition with zero reward —
target, reward and stored value all equal 0, and the stored value stays
0 after the update. -/
theorem C7_witness :
    get_q_value (update_q_value
        { player_id := 0, learning_rate := 1/10, discount_factor := 9/10,
          epsilon := 2/10, q_table := [], wins := 0, games_played := 0,
          total_reward := 0 }
        (viewOf goalHeap goalState) "stay" 0 (viewOf goalHeap goalState) true)
      (get_state_key 0 (viewOf goalHeap goalState)) "stay" =
    get_q_value
      { player_id := 0, learning_rate := 1/10, discount_factor := 9/10,
        epsilon := 2/10, q_table := [], wins := 0, games_played := 0,
        total_reward := 0 }
      (get_state_key 0 (viewOf goalHeap goalState)) "stay" :=
  (C7_update_rule
    { player_id := 0, learning_rate := 1/10, discount_factor := 9/10,
      epsilon := 2/10, q_table := [], wins := 0, games_played := 0,
      total_reward := 0 }
    (viewOf goalHeap goalState) "stay" 0 (viewOf goalHeap goalState) true).2 (by decide)

/-- C8. As stated, the claim is FALSE: decaying 0 times leaves epsilon
at its initial value, not at `max(floor, epsilon₀·rate⁰)` (here 1, not
`max(2, 1) = 2`); and for a rate above 1 the floor keeps feeding the
growth (two decays from 1 with floor 10 and rate 2 give 20, while the
claimed formula gives `max(10, 4) = 10`). -/
theorem C8_counterexample :
    decayIter 1 1 2 0 ≠ max 2 (1 * 1 ^ (0 : Nat)) ∧
      decayIter 1 2 10 2 ≠ max 10 (1 * 2 ^ (2 : Nat)) := by
  constructor
  · norm_num [decayIter, decay_epsilon, max_def]
  · norm_num [decayIter, decay_epsilon, max_def]

/-- C8 (amended). For every initial epsilon, decay rate `r` with
`0 ≤ r ≤ 1`, floor `m ≥ 0` and number of steps `k ≥ 1`, applying the
per-episode decay `epsilon ← max(floor, epsilon·rate)` `k` times yields
`max(m, epsilon₀·rᵏ)`. -/
theorem C8_epsilon_decay_geometric (e r m : ℚ) (k : Nat) (hk : 1 ≤ k)
    (hr0 : 0 ≤ r) (hr1 : r ≤ 1) (hm : 0 ≤ m) :
    decayIter e r m k = max m (e * r ^ k) := by
  induction k with
  | zero => exact absurd hk (by norm_num)
  | succ n ih =>
      rcases Nat.eq_zero_or_pos n with hn | hn
      · subst hn
        simp [decayIter, decay_epsilon, pow_one]
      · have ihn := ih hn
        show decay_epsilon (decayIter e r m n) r m = max m (e * r ^ (n + 1))
        rw [ihn]
        unfold decay_epsilon
        rw [max_mul_of_nonneg _ _ hr0, ← max_assoc,
          max_eq_left (mul_le_of_le_one_right hm hr1), pow_succ, ← mul_assoc]

/-- C8 witness: one decay step from 1 with rate 1/2 and floor 0. -/
theorem C8_witness : decayIter 1 (1/2) 0 1 = max 0 (1 * (1/2) ^ (1 : Nat)) :=
  C8_epsilon_decay_geometric 1 (1/2) 0 1 (le_refl 1) (by norm_num) (by norm_num)
    (le_refl 0)

/-- A population variance is never negative. -/
theorem npVar_nonneg (l : List ℚ) : 0 ≤ npVar l := by
  unfold npVar
  apply div_nonneg _ (Nat.cast_nonneg _)
  apply List.sum_nonneg
  intro y hy
  obtain ⟨x, _, rfl⟩ := List.mem_map.mp hy
  positivity

/-- The population variance of a nonempty constant list is zero. -/
theorem npVar_eq_zero_of_const (l : List ℚ) (hl : l ≠ [])
    (h : ∀ x ∈ l, ∀ y ∈ l, x = y) : npVar l = 0 := by
  obtain ⟨a, t, rfl⟩ : ∃ a t, l = a :: t := by
    cases l with
    | nil => exact absurd rfl hl
    | cons a t => exact ⟨a, t, rfl⟩
  have hall : ∀ x ∈ a :: t, x = a := fun x hx => h x hx a (List.mem_cons_self a t)
  have hsum : (a :: t).sum = ((a :: t).length : ℚ) * a := by
    rw [List.sum_eq_card_nsmul _ a hall, nsmul_eq_mul]
  have hlen : ((a :: t).length : ℚ) ≠ 0 := by
    rw [List.length_cons]
    exact_mod_cast Nat.succ_ne_zero t.length
  have hmean : npMean (a :: t) = a := by
    unfold npMean
    rw [hsum]
    field_simp
  unfold npVar
  rw [List.sum_eq_zero, zero_div]
  intro y hy
  obtain ⟨x, hx, rfl⟩ := List.mem_map.mp hy
  rw [hmean, hall x hx]
  ring

/-- C9. For every nonempty list of decided winners and player count
`N ≥ 1`, the fairness score equals
`100 × (1 − min(variance(winPercentages) / (100/N)², 1))`, lies in
`[0, 100]`, and equals exactly 100 whenever every player has the same
win percentage. -/
theorem C9_fairness_formula (winners : List Nat) (num_players : Nat)
    (hw : winners ≠ []) (hn : 1 ≤ num_players) :
    calculate_fairness_score winners num_players =
        100 * (1 - min (npVar ((calculate_win_distribution winners num_players).map
          (fun p => p.2)) / (100 / (num_players : ℚ)) ^ 2) 1) ∧
      0 ≤ calculate_fairness_score winners num_players ∧
      calculate_fairness_score winners num_players ≤ 100 ∧
      ((∀ x ∈ (calculate_win_distribution winners num_players).map (fun p => p.2),
          ∀ y ∈ (calculate_win_distribution winners num_players).map (fun p => p.2),
          x = y) →
        calculate_fairness_score winners num_players = 100) := by
  have hform : calculate_fairness_score winners num_players =
      100 * (1 - min (npVar ((calculate_win_distribution winners num_players).map
        (fun p => p.2)) / (100 / (num_players : ℚ)) ^ 2) 1) := by
    unfold calculate_fairness_score
    rw [if_neg hw]
  have hq0 : 0 ≤ npVar ((calculate_win_distribution winners num_players).map
      (fun p => p.2)) / (100 / (num_players : ℚ)) ^ 2 :=
    div_nonneg (npVar_nonneg _) (sq_nonneg _)
  have hmin0 : 0 ≤ min (npVar ((calculate_win_distribution winners num_players).map
      (fun p => p.2)) / (100 / (num_players : ℚ)) ^ 2) 1 :=
    le_min hq0 zero_le_one
  have hmin1 : min (npVar ((calculate_win_distribution winners num_players).map
      (fun p => p.2)) / (100 / (num_players : ℚ)) ^ 2) 1 ≤ 1 :=
    min_le_right _ _
  refine ⟨hform, ?_, ?_, ?_⟩
  · rw [hform]; nlinarith
  · rw [hform]; nlinarith
  · intro hconst
    have hlen : ((calculate_win_distribution winners num_players).map
        (fun p => p.2)).length = num_players := by
      unfold calculate_win_distribution
      rw [if_neg hw]
      simp
    have hne : (calculate_win_distribution winners num_players).map
        (fun p => p.2) ≠ [] := by
      intro hnil
      rw [hnil] at hlen
      simp at hlen
      omega
    have hvar := npVar_eq_zero_of_const _ hne hconst
    rw [hform, hvar, zero_div, min_eq_left zero_le_one]
    norm_num

/-- C9 witness: two players each winning one of two decided games — the
distribution is perfectly uniform, so the fairness score is exactly
100. -/
theorem C9_witness : calculate_fairness_score [0, 1] 2 = 100 := by
  have hconst : ∀ x ∈ (calculate_win_distribution [0, 1] 2).map (fun p => p.2),
      ∀ y ∈ (calculate_win_distribution [0, 1] 2).map (fun p => p.2), x = y := by
    have hd : calculate_win_distribution [0, 1] 2 = [(0, 50), (1, 50)] := by
      unfold calculate_win_distribution
      rw [if_neg (by decide)]
      norm_num [List.range_succ]
    rw [hd]
    norm_num
  exact (C9_fairness_formula [0, 1] 2 (by decide) (by decide)).2.2.2 hconst

/-- `_execute_action` returns the top-level state unchanged:
`state.copy()` duplicates only the scalar fields and the references,
and the genre executors mutate exclusively the heap-resident nested
dictionaries. -/
theorem execute_action_next_top (cfg : GameConfig) (rng : Rng) (h : Heap)
    (state : TopState) (pid : Nat) (a : String) :
    (execute_action cfg rng h state pid a).2.1 = state := by
  unfold execute_action
  dsimp only

/-- C10. `_execute_action` builds its next state as a shallow copy of
the current one, so after any action execution the old top-level state
and the `next_state` that `simulate_game` hands to `update_q_value`
(the copy, possibly stamped with `game_over`/`winner`) hold the same
references to the per-player position, resource and score
dictionaries; read through the post-action heap, the old state presents
exactly the same (post-action) agent view as the next state, and
`get_state_key` yields the identical StateKey on both. -/
theorem C10_shallow_copy_aliasing (cfg : GameConfig) (rng : Rng) (h : Heap)
    (state : TopState) (player_id : Nat) (action : String) :
    ((stepNextState cfg (execute_action cfg rng h state player_id action).1
        (execute_action cfg rng h state player_id action).2.1 player_id).posRef =
          state.posRef ∧
      (stepNextState cfg (execute_action cfg rng h state player_id action).1
        (execute_action cfg rng h state player_id action).2.1 player_id).resRef =
          state.resRef ∧
      (stepNextState cfg (execute_action cfg rng h state player_id action).1
        (execute_action cfg rng h state player_id action).2.1 player_id).scoreRef =
          state.scoreRef) ∧
      viewOf (execute_action cfg rng h state player_id action).1 state =
        viewOf (execute_action cfg rng h state player_id action).1
          (stepNextState cfg (execute_action cfg rng h state player_id action).1
            (execute_action cfg rng h state player_id action).2.1 player_id) ∧
      get_state_key player_id
          (viewOf (execute_action cfg rng h state player_id action).1 state) =
        get_state_key player_id
          (viewOf (execute_action cfg rng h state player_id action).1
            (stepNextState cfg (execute_action cfg rng h state player_id action).1
              (execute_action cfg rng h state player_id action).2.1 player_id)) := by
  rw [execute_action_next_top]
  by_cases hwin : check_win_condition cfg
      (execute_action cfg rng h state player_id action).1 state player_id
  · unfold stepNextState
    rw [if_pos hwin]
    exact ⟨⟨rfl, rfl, rfl⟩, rfl, rfl⟩
  · unfold stepNextState
    rw [if_neg hwin]
    exact ⟨⟨rfl, rfl, rfl⟩, rfl, rfl⟩

end AIMLProject
